import Mathlib

/-!
Verification of the `igadmg/vector` Go library (packages `vector2`, `vector3`,
`vector4`) against its natural-language specification.

Modelling conventions, fixed for the whole file:

* A Go `Vector[T]` of each dimensionality is a Lean structure with the same
  named components in the same order.
* Go's numeric scalar kinds are listed by `ScalarKind`.  Where an operation is
  generic over the kind we embed it generically; float64 values are modelled
  as exact rationals (`ℚ`) — every finite float64 is a rational, and Go's
  float64 <-> JSON text encoding is lossless — and the 64-bit signed integer
  kind as `ℤ`.  On the float64-kind instantiations the rational arithmetic is
  taken exact (the standard real-valued reading of the float formulas); on
  the int64-kind instantiations, where claims turn on rounding, every lossy
  step is modelled bit-faithfully: `goFloat64OfInt` (Go `float64(n)` of an
  integer, round to nearest, ties to even, 53-bit significand), `ratTruncInt`
  (Go `int64(x)` of a float64, truncation toward zero), and `f64round` (IEEE
  binary64 round-to-nearest-even applied to the exact rational value of a
  float64 multiplication or addition; the binary64 exponent range is
  idealized as unbounded — no overflow or subnormal rounding, which nothing
  at the integer magnitudes of these claims can reach — and the single IEEE
  zero of `ℚ` stands for both signed zeros, indistinguishable after the
  integer conversions used here).
* The transcendental operations (`math.Sqrt`, `math.Acos`) have no exact
  rational counterpart; the operation that uses them (`Angle`) is embedded
  parametrically in the two function values, so every theorem about it holds
  for an arbitrary implementation of the two.
* `encoding/json` is Go's standard library; its behaviour on the wire shape
  used here (a flat object of optional numeric fields decoded into a struct
  of float64 fields pre-set to zero, with a whole-input well-formedness check
  before any write) is embedded by the per-dimensionality `Json2/3/4` types.
-/

set_option maxHeartbeats 1000000

namespace GoVector

/-- The closed set of scalar kinds a Go `Vector[T]` can be instantiated at
(`vector.Number`): IEEE float64/float32 and the signed integer widths the
package aliases name. -/
inductive ScalarKind where
  | float64
  | float32
  | int
  | int64
  | int32
  | int16
  | int8
deriving DecidableEq, Repr

/-- Go `vector2.Vector[T]`: two named components `X`, `Y`. -/
structure Vector2 (α : Type) where
  X : α
  Y : α
deriving DecidableEq, Repr

/-- Go `vector3.Vector[T]` (the newer generic revision): components `X, Y, Z`. -/
structure Vector3 (α : Type) where
  X : α
  Y : α
  Z : α
deriving DecidableEq, Repr

/-- Go `vector4.Vector[T]`: components `x, y, z, w`. -/
structure Vector4 (α : Type) where
  x : α
  y : α
  z : α
  w : α
deriving DecidableEq, Repr

/-- Go source: `func (v Vector[T]) Dot(other Vector[T]) T` in
`vector2/vector2.go` — the declared result kind of `vector2.Vector[T].Dot`,
transcribed from the signature: the native kind `T` itself. -/
def vector2DotResultKind (t : ScalarKind) : ScalarKind := t

/-- Go source: `func (v Vector[T]) Dot(other Vector[T]) float64` in
`vector3.go` (generic revision) — the declared result kind of
`vector3.Vector[T].Dot`: always `float64`. -/
def vector3DotResultKind (_ : ScalarKind) : ScalarKind := ScalarKind.float64

/-- Go source: `func (v Vector[T]) Dot(other Vector[T]) float64` in
`vector4/vector4.go` — the declared result kind of `vector4.Vector[T].Dot`:
always `float64`. -/
def vector4DotResultKind (_ : ScalarKind) : ScalarKind := ScalarKind.float64

/-- `vector2.Vector[T].Dot`: `v.X*other.X + v.Y*other.Y`, computed and
returned in the native kind `T`. -/
def Vector2.Dot {α : Type} [Mul α] [Add α] (v other : Vector2 α) : α :=
  v.X * other.X + v.Y * other.Y

/-- `vector3.Vector[T].Dot`: `float64((v.X*other.X) + (v.Y*other.Y) +
(v.Z*other.Z))` — the sum is computed in the native kind and then converted
to float64.  This is the float64-kind instantiation, where the final
conversion is the identity; the result kind of the Go signature is recorded
by `vector3DotResultKind`. -/
def Vector3.Dot {α : Type} [Mul α] [Add α] (v other : Vector3 α) : α :=
  (v.X * other.X) + (v.Y * other.Y) + (v.Z * other.Z)

/-- `vector4.Vector[T].Dot`: `float64((v.x*other.x) + (v.y*other.y) +
(v.z*other.z) + (v.w*other.w))`, float64-kind instantiation as for
`Vector3.Dot`; the Go result kind is recorded by `vector4DotResultKind`. -/
def Vector4.Dot {α : Type} [Mul α] [Add α] (v other : Vector4 α) : α :=
  (v.x * other.x) + (v.y * other.y) + (v.z * other.z) + (v.w * other.w)

/-- The spec's formula for `Dot` ("sum of componentwise products"), written
from the spec's words for the two-component case. -/
def dotSpec2 {α : Type} [Mul α] [Add α] (v other : Vector2 α) : α :=
  v.X * other.X + v.Y * other.Y

/-- The spec's "sum of componentwise products" for the three-component case. -/
def dotSpec3 {α : Type} [Mul α] [Add α] (v other : Vector3 α) : α :=
  v.X * other.X + v.Y * other.Y + v.Z * other.Z

/-- The spec's "sum of componentwise products" for the four-component case. -/
def dotSpec4 {α : Type} [Mul α] [Add α] (v other : Vector4 α) : α :=
  v.x * other.x + v.y * other.y + v.z * other.z + v.w * other.w

/-- `vector3.Right[T]()`: `(1, 0, 0)`. -/
def Vector3.Right {α : Type} [Zero α] [One α] : Vector3 α := ⟨1, 0, 0⟩

/-- `vector3.Up[T]()`: `(0, 1, 0)`. -/
def Vector3.Up {α : Type} [Zero α] [One α] : Vector3 α := ⟨0, 1, 0⟩

/-- `vector3.Vector[T].Cross`:
`(v.Y*o.Z - v.Z*o.Y, v.Z*o.X - v.X*o.Z, v.X*o.Y - v.Y*o.X)`. -/
def Vector3.Cross {α : Type} [Mul α] [Sub α] (v other : Vector3 α) : Vector3 α :=
  ⟨(v.Y * other.Z) - (v.Z * other.Y),
   (v.Z * other.X) - (v.X * other.Z),
   (v.X * other.Y) - (v.Y * other.X)⟩

/-- `vector3.Vector[T].Perpendicular`: chooses a helper axis — `Right` when
`v.Y != 0 || v.Z != 0`, else `Up` — and returns `v.Cross(c)`. -/
def Vector3.Perpendicular {α : Type} [Zero α] [One α] [Mul α] [Sub α]
    [DecidableEq α] (v : Vector3 α) : Vector3 α :=
  let c : Vector3 α := if v.Y ≠ 0 ∨ v.Z ≠ 0 then Vector3.Right else Vector3.Up
  v.Cross c

/-- `vector2.FromArray(data)`: `v := Vector[T]{}` then `v.X = data[0]` if
`len(data) > 0` and `v.Y = data[1]` if `len(data) > 1`; a component whose
index is past the end of the slice keeps the zero value. -/
def Vector2.FromArray {α : Type} [Zero α] (data : List α) : Vector2 α :=
  ⟨data.getD 0 0, data.getD 1 0⟩

/-- `vector3.FromArray(data)`, as `Vector2.FromArray` with a third index. -/
def Vector3.FromArray {α : Type} [Zero α] (data : List α) : Vector3 α :=
  ⟨data.getD 0 0, data.getD 1 0, data.getD 2 0⟩

/-- `vector4.FromArray(data)`, as `Vector2.FromArray` with four indices. -/
def Vector4.FromArray {α : Type} [Zero α] (data : List α) : Vector4 α :=
  ⟨data.getD 0 0, data.getD 1 0, data.getD 2 0, data.getD 3 0⟩

/-- Round `a` down-scaled by `2^s` to the nearest integer, ties to the even
quotient: the significand-rounding step of an IEEE binary64 conversion. -/
def roundHalfEvenDiv (a : ℕ) (s : ℕ) : ℕ :=
  let q := a / 2 ^ s
  let r := a % 2 ^ s
  let half := 2 ^ s / 2
  if r < half then q
  else if half < r then q + 1
  else if q % 2 = 0 then q else q + 1

/-- How many halvings bring `a` strictly below `2^53` — the binary-exponent
excess of a wide integer over the 53-bit significand range.  The fuel (64 for
every use here) bounds the recursion structurally and is ample for any 64-bit
integer magnitude. -/
def f64scale : ℕ → ℕ → ℕ
  | 0, _ => 0
  | fuel + 1, a => if a < 2 ^ 53 then 0 else f64scale fuel (a / 2) + 1

/-- Go's `float64(n)` conversion of a (64-bit) integer value, returned as the
exact integer the resulting float64 holds: integers of magnitude up to `2^53`
are exactly representable and pass through unchanged; a larger magnitude `a`
is rounded to the nearest multiple of `2^s`, ties to even — `s` the unique
shift with `a / 2^s` in the normalized significand range `[2^52, 2^53)`
(IEEE 754 round-to-nearest-even at 53 significant bits; every 64-bit integer
is far below the float64 overflow threshold). -/
def goFloat64OfInt (n : ℤ) : ℤ :=
  let a := n.natAbs
  if a ≤ 2 ^ 53 then n
  else
    let s := f64scale 64 (a / 2) + 1
    let m := (roundHalfEvenDiv a s * 2 ^ s : ℕ)
    if 0 ≤ n then (m : ℤ) else -(m : ℤ)

/-- Go's `int64(x)` (and `int(x)`) conversion of a float64 value: truncation
toward zero. -/
def ratTruncInt (q : ℚ) : ℤ :=
  if 0 ≤ q then ⌊q⌋ else ⌈q⌉

/-- Modelled from the spec: the shared numeric clamp helper (`vector.Clamp` /
`mathex.Clamp`, whose source file is not part of the staged repository):
"clamps each component independently to [min,max]" via the two-step
min-then-max composition the spec fixes. -/
def mathexClamp {α : Type} [LinearOrder α] (v min max : α) : α :=
  Max.max (Min.min v max) min

/-- `vector4.Vector[T].Add`: componentwise addition. -/
def Vector4.Add {α : Type} [Add α] (v other : Vector4 α) : Vector4 α :=
  ⟨v.x + other.x, v.y + other.y, v.z + other.z, v.w + other.w⟩

/-- `vector4.Vector[T].Sub`: componentwise subtraction. -/
def Vector4.Sub {α : Type} [Sub α] (v other : Vector4 α) : Vector4 α :=
  ⟨v.x - other.x, v.y - other.y, v.z - other.z, v.w - other.w⟩

/-- `vector2.Vector[T].Clamp(min, max)` at the float64 kind:
`T(math.Max(math.Min(float64(component), float64(max)), float64(min)))` per
component. -/
def Vector2.Clamp (v : Vector2 ℚ) (min max : ℚ) : Vector2 ℚ :=
  ⟨Max.max (Min.min v.X max) min, Max.max (Min.min v.Y max) min⟩

/-- `vector4.Vector[T].Clamp(min, max)` at the float64 kind, same per-component
formula as `Vector2.Clamp`. -/
def Vector4.Clamp (v : Vector4 ℚ) (min max : ℚ) : Vector4 ℚ :=
  ⟨Max.max (Min.min v.x max) min, Max.max (Min.min v.y max) min,
   Max.max (Min.min v.z max) min, Max.max (Min.min v.w max) min⟩

/-- The spec's phrase "v's component clamped into [min,max]", written from
the claim's words: the nearest point of the interval. -/
def clampIntoSpec (c min max : ℚ) : ℚ :=
  if c < min then min else if max < c then max else c

/-- `vector2.Vector[T].LengthSquared`: `v.X*v.X + v.Y*v.Y` in the native
kind. -/
def Vector2.LengthSquared {α : Type} [Mul α] [Add α] (v : Vector2 α) : α :=
  v.X * v.X + v.Y * v.Y

/-- `vector3.Vector[T].LengthSquared`: `float64((v.X*v.X) + (v.Y*v.Y) +
(v.Z*v.Z))`, float64-kind instantiation. -/
def Vector3.LengthSquared {α : Type} [Mul α] [Add α] (v : Vector3 α) : α :=
  (v.X * v.X) + (v.Y * v.Y) + (v.Z * v.Z)

/-- `vector2.Vector[T].Angle(other)` at the float64 kind, parametric in the
two transcendental library functions it calls (`math.Sqrt`, `math.Acos`):
`denominator := sqrt(lenSq(v) * lenSq(other))`; `0` when
`denominator < 1e-15`, else `acos(vector.Clamp(dot/denominator, -1, 1))`. -/
def Vector2.Angle (sqrt acos : ℚ → ℚ) (v other : Vector2 ℚ) : ℚ :=
  let denominator := sqrt (v.LengthSquared * other.LengthSquared)
  if denominator < 1e-15 then 0
  else acos (mathexClamp (v.Dot other / denominator) (-1) 1)

/-- `vector3.Vector[T].Angle(other)` at the float64 kind, parametric in
`math.Sqrt` and `math.Acos` exactly as `Vector2.Angle`. -/
def Vector3.Angle (sqrt acos : ℚ → ℚ) (v other : Vector3 ℚ) : ℚ :=
  let denominator := sqrt (v.LengthSquared * other.LengthSquared)
  if denominator < 1e-15 then 0
  else acos (mathexClamp (v.Dot other / denominator) (-1) 1)

/-- The spec's sentence for `Angle`, written independently from its words:
"acos of the dot product divided by sqrt(|a|² · |b|²) with the quotient
clamped to [-1, 1]", and "returns 0 when ... the denominator [is] smaller
than 1e-15"; the clamp written directly as a lower and an upper bound. -/
def angleSpec2 (sqrt acos : ℚ → ℚ) (v other : Vector2 ℚ) : ℚ :=
  if sqrt (v.LengthSquared * other.LengthSquared) < 1e-15 then 0
  else acos (Max.max (-1) (Min.min
    (v.Dot other / sqrt (v.LengthSquared * other.LengthSquared)) 1))

/-- The spec's `Angle` sentence for the three-component case, as
`angleSpec2`. -/
def angleSpec3 (sqrt acos : ℚ → ℚ) (v other : Vector3 ℚ) : ℚ :=
  if sqrt (v.LengthSquared * other.LengthSquared) < 1e-15 then 0
  else acos (Max.max (-1) (Min.min
    (v.Dot other / sqrt (v.LengthSquared * other.LengthSquared)) 1))

/-- The JSON input a two-component `UnmarshalJSON` can face, as
`encoding/json` classifies it: text that is not well-formed JSON (rejected
before anything is written), or an object whose numeric fields `x`, `y` are
each present with a float64 value or absent.  A float64 JSON number is an
exact rational (Go's float64 <-> JSON text encoding is lossless). -/
inductive Json2 where
  | malformed
  | obj (xField yField : Option ℚ)
deriving DecidableEq, Repr

/-- The three-field wire object for `vector3`, as `Json2`. -/
inductive Json3 where
  | malformed
  | obj (xField yField zField : Option ℚ)
deriving DecidableEq, Repr

/-- The four-field wire object for `vector4`, as `Json2`. -/
inductive Json4 where
  | malformed
  | obj (xField yField zField wField : Option ℚ)
deriving DecidableEq, Repr

/-- `vector2.Vector[T].MarshalJSON` at the float64 kind: marshals the
anonymous struct `{X float64 "json:x"; Y float64 "json:y"}` holding
`float64(v.X), float64(v.Y)` (conversions the identity at this kind). -/
def Vector2.MarshalJSON (v : Vector2 ℚ) : Json2 :=
  Json2.obj (some v.X) (some v.Y)

/-- `vector2.Vector[T].MarshalJSON` at the int64 kind: the components pass
through Go's `float64(·)` conversion (`goFloat64OfInt`) into the wire
object. -/
def Vector2.MarshalJSONInt64 (v : Vector2 ℤ) : Json2 :=
  Json2.obj (some (goFloat64OfInt v.X : ℚ)) (some (goFloat64OfInt v.Y : ℚ))

/-- `vector2.Vector[T].UnmarshalJSON` at the float64 kind, as a transformer of
the receiver: `aux := &struct{...}{X: 0, Y: 0}`; on a decoding error the
method returns the error with the receiver untouched; otherwise each field of
`aux` (a missing wire field leaves its zero default) is assigned to the
receiver.  The `Bool` is "returned an error". -/
def Vector2.UnmarshalJSON (data : Json2) (v : Vector2 ℚ) : Bool × Vector2 ℚ :=
  match data with
  | Json2.malformed => (true, v)
  | Json2.obj xf yf => (false, ⟨xf.getD 0, yf.getD 0⟩)

/-- `vector2.Vector[T].UnmarshalJSON` at the int64 kind: as the float64 kind,
with the final `v.X = T(aux.X)` assignments truncating toward zero
(`ratTruncInt`). -/
def Vector2.UnmarshalJSONInt64 (data : Json2) (v : Vector2 ℤ) : Bool × Vector2 ℤ :=
  match data with
  | Json2.malformed => (true, v)
  | Json2.obj xf yf => (false, ⟨ratTruncInt (xf.getD 0), ratTruncInt (yf.getD 0)⟩)

/-- `vector3.Vector[T].MarshalJSON` at the float64 kind. -/
def Vector3.MarshalJSON (v : Vector3 ℚ) : Json3 :=
  Json3.obj (some v.X) (some v.Y) (some v.Z)

/-- `vector3.Vector[T].MarshalJSON` at the int64 kind. -/
def Vector3.MarshalJSONInt64 (v : Vector3 ℤ) : Json3 :=
  Json3.obj (some (goFloat64OfInt v.X : ℚ)) (some (goFloat64OfInt v.Y : ℚ))
    (some (goFloat64OfInt v.Z : ℚ))

/-- `vector3.Vector[T].UnmarshalJSON` at the float64 kind (three-field
`aux`, defaults 0; error before any write on malformed input). -/
def Vector3.UnmarshalJSON (data : Json3) (v : Vector3 ℚ) : Bool × Vector3 ℚ :=
  match data with
  | Json3.malformed => (true, v)
  | Json3.obj xf yf zf => (false, ⟨xf.getD 0, yf.getD 0, zf.getD 0⟩)

/-- `vector3.Vector[T].UnmarshalJSON` at the int64 kind. -/
def Vector3.UnmarshalJSONInt64 (data : Json3) (v : Vector3 ℤ) : Bool × Vector3 ℤ :=
  match data with
  | Json3.malformed => (true, v)
  | Json3.obj xf yf zf =>
    (false, ⟨ratTruncInt (xf.getD 0), ratTruncInt (yf.getD 0),
             ratTruncInt (zf.getD 0)⟩)

/-- `vector4.Vector[T].MarshalJSON` at the float64 kind. -/
def Vector4.MarshalJSON (v : Vector4 ℚ) : Json4 :=
  Json4.obj (some v.x) (some v.y) (some v.z) (some v.w)

/-- `vector4.Vector[T].MarshalJSON` at the int64 kind. -/
def Vector4.MarshalJSONInt64 (v : Vector4 ℤ) : Json4 :=
  Json4.obj (some (goFloat64OfInt v.x : ℚ)) (some (goFloat64OfInt v.y : ℚ))
    (some (goFloat64OfInt v.z : ℚ)) (some (goFloat64OfInt v.w : ℚ))

/-- `vector4.Vector[T].UnmarshalJSON` at the float64 kind (four-field `aux`,
defaults 0). -/
def Vector4.UnmarshalJSON (data : Json4) (v : Vector4 ℚ) : Bool × Vector4 ℚ :=
  match data with
  | Json4.malformed => (true, v)
  | Json4.obj xf yf zf wf => (false, ⟨xf.getD 0, yf.getD 0, zf.getD 0, wf.getD 0⟩)

/-- `vector4.Vector[T].UnmarshalJSON` at the int64 kind. -/
def Vector4.UnmarshalJSONInt64 (data : Json4) (v : Vector4 ℤ) : Bool × Vector4 ℤ :=
  match data with
  | Json4.malformed => (true, v)
  | Json4.obj xf yf zf wf =>
    (false, ⟨ratTruncInt (xf.getD 0), ratTruncInt (yf.getD 0),
             ratTruncInt (zf.getD 0), ratTruncInt (wf.getD 0)⟩)

theorem goFloat64OfInt_eq_self {n : ℤ} (h : n.natAbs ≤ 2 ^ 53) :
    goFloat64OfInt n = n := by
  unfold goFloat64OfInt
  rw [if_pos h]

theorem ratTruncInt_intCast (n : ℤ) : ratTruncInt (n : ℚ) = n := by
  unfold ratTruncInt
  split <;> simp

/-- C1 (counterexample): at the scalar kind `int`, `vector2.Vector.Dot`
returns the native kind `int` and not `float64`, while the generic
`vector3.Vector.Dot` returns `float64` and not the native kind — the claim's
per-dimensionality convention is the wrong way around for Vector2 and
Vector3. -/
theorem dot_result_kind_counterexample :
    (vector2DotResultKind ScalarKind.int = ScalarKind.int
      ∧ vector2DotResultKind ScalarKind.int ≠ ScalarKind.float64)
    ∧ (vector3DotResultKind ScalarKind.int = ScalarKind.float64
      ∧ vector3DotResultKind ScalarKind.int ≠ ScalarKind.int) := by
  decide

/-- C1 (amended): `Dot` is the sum of componentwise products, and the result
kind convention is: `vector2.Vector.Dot` returns the native scalar kind `T`
for every kind, while `vector3.Vector.Dot` (the newer generic revision) and
`vector4.Vector.Dot` return `float64` for every kind. -/
theorem dot_sum_of_products_and_result_kinds :
    (∀ t : ScalarKind, vector2DotResultKind t = t)
    ∧ (∀ t : ScalarKind, vector3DotResultKind t = ScalarKind.float64)
    ∧ (∀ t : ScalarKind, vector4DotResultKind t = ScalarKind.float64)
    ∧ (∀ (α : Type) [Mul α] [Add α] (v other : Vector2 α),
        Vector2.Dot v other = dotSpec2 v other)
    ∧ (∀ (α : Type) [Mul α] [Add α] (v other : Vector3 α),
        Vector3.Dot v other = dotSpec3 v other)
    ∧ (∀ (α : Type) [Mul α] [Add α] (v other : Vector4 α),
        Vector4.Dot v other = dotSpec4 v other) :=
  ⟨fun _ => rfl, fun _ => rfl, fun _ => rfl,
   fun _ _ _ _ _ => rfl, fun _ _ _ _ _ => rfl, fun _ _ _ _ _ => rfl⟩

/-- C4: unmarshaling input that is not well-formed JSON returns a decoding
error and leaves every component of the target vector at its pre-call value,
for every dimensionality, at the float64 and the int64 scalar kinds. -/
theorem unmarshal_malformed_error_frame :
    (∀ pre : Vector2 ℚ, Vector2.UnmarshalJSON Json2.malformed pre = (true, pre))
    ∧ (∀ pre : Vector2 ℤ,
        Vector2.UnmarshalJSONInt64 Json2.malformed pre = (true, pre))
    ∧ (∀ pre : Vector3 ℚ, Vector3.UnmarshalJSON Json3.malformed pre = (true, pre))
    ∧ (∀ pre : Vector3 ℤ,
        Vector3.UnmarshalJSONInt64 Json3.malformed pre = (true, pre))
    ∧ (∀ pre : Vector4 ℚ, Vector4.UnmarshalJSON Json4.malformed pre = (true, pre))
    ∧ (∀ pre : Vector4 ℤ,
        Vector4.UnmarshalJSONInt64 Json4.malformed pre = (true, pre)) :=
  ⟨fun _ => rfl, fun _ => rfl, fun _ => rfl, fun _ => rfl, fun _ => rfl,
   fun _ => rfl⟩

/-- C10: unmarshaling the well-formed object `{}` (none of the expected
fields present) succeeds without error and sets every component to zero,
whatever the receiver held before, for every dimensionality at the float64
and int64 scalar kinds. -/
theorem unmarshal_empty_object_zeroes :
    (∀ pre : Vector2 ℚ,
        Vector2.UnmarshalJSON (Json2.obj none none) pre = (false, ⟨0, 0⟩))
    ∧ (∀ pre : Vector2 ℤ,
        Vector2.UnmarshalJSONInt64 (Json2.obj none none) pre = (false, ⟨0, 0⟩))
    ∧ (∀ pre : Vector3 ℚ,
        Vector3.UnmarshalJSON (Json3.obj none none none) pre = (false, ⟨0, 0, 0⟩))
    ∧ (∀ pre : Vector3 ℤ,
        Vector3.UnmarshalJSONInt64 (Json3.obj none none none) pre
          = (false, ⟨0, 0, 0⟩))
    ∧ (∀ pre : Vector4 ℚ,
        Vector4.UnmarshalJSON (Json4.obj none none none none) pre
          = (false, ⟨0, 0, 0, 0⟩))
    ∧ (∀ pre : Vector4 ℤ,
        Vector4.UnmarshalJSONInt64 (Json4.obj none none none none) pre
          = (false, ⟨0, 0, 0, 0⟩)) := by
  refine ⟨fun _ => rfl, fun _ => ?_, fun _ => rfl, fun _ => ?_, fun _ => rfl,
    fun _ => ?_⟩ <;> simp [Vector2.UnmarshalJSONInt64, Vector3.UnmarshalJSONInt64,
      Vector4.UnmarshalJSONInt64, ratTruncInt]

/-- C8: `FromArray` uses the first `min(len, N)` elements in order, zero-fills
the remaining components, ignores elements past index `N-1`, and yields the
all-zero vector for an empty (or absent — a Go `nil` slice ranges as empty)
sequence, for every scalar kind and each dimensionality. -/
theorem fromarray_components (α : Type) [Zero α] :
    (Vector2.FromArray ([] : List α) = ⟨0, 0⟩)
    ∧ (∀ a : α, Vector2.FromArray [a] = ⟨a, 0⟩)
    ∧ (∀ (a b : α) (rest : List α), Vector2.FromArray (a :: b :: rest) = ⟨a, b⟩)
    ∧ (Vector3.FromArray ([] : List α) = ⟨0, 0, 0⟩)
    ∧ (∀ a : α, Vector3.FromArray [a] = ⟨a, 0, 0⟩)
    ∧ (∀ a b : α, Vector3.FromArray [a, b] = ⟨a, b, 0⟩)
    ∧ (∀ (a b c : α) (rest : List α),
        Vector3.FromArray (a :: b :: c :: rest) = ⟨a, b, c⟩)
    ∧ (Vector4.FromArray ([] : List α) = ⟨0, 0, 0, 0⟩)
    ∧ (∀ a : α, Vector4.FromArray [a] = ⟨a, 0, 0, 0⟩)
    ∧ (∀ a b : α, Vector4.FromArray [a, b] = ⟨a, b, 0, 0⟩)
    ∧ (∀ a b c : α, Vector4.FromArray [a, b, c] = ⟨a, b, c, 0⟩)
    ∧ (∀ (a b c d : α) (rest : List α),
        Vector4.FromArray (a :: b :: c :: d :: rest) = ⟨a, b, c, d⟩) :=
  ⟨rfl, fun _ => rfl, fun _ _ _ => rfl, rfl, fun _ => rfl, fun _ _ => rfl,
   fun _ _ _ _ => rfl, rfl, fun _ => rfl, fun _ _ => rfl, fun _ _ _ => rfl,
   fun _ _ _ _ _ => rfl⟩

/-- C9: the cross product is antisymmetric — `Cross(a, b)` is the
componentwise negation of `Cross(b, a)` for every pair of three-component
vectors over any commutative-ring scalar kind. -/
theorem cross_antisymmetry (α : Type) [CommRing α] (a b : Vector3 α) :
    Vector3.Cross a b
      = ⟨-(Vector3.Cross b a).X, -(Vector3.Cross b a).Y, -(Vector3.Cross b a).Z⟩ := by
  simp only [Vector3.Cross, Vector3.mk.injEq]
  refine ⟨by ring, by ring, by ring⟩

theorem maxmin_eq_clampIntoSpec {c lo hi : ℚ} (h : lo ≤ hi) :
    Max.max (Min.min c hi) lo = clampIntoSpec c lo hi := by
  unfold clampIntoSpec
  split_ifs with h1 h2
  · rw [min_eq_left (le_trans h1.le h), max_eq_right h1.le]
  · rw [min_eq_right h2.le, max_eq_left h]
  · rw [min_eq_left (not_lt.1 h2), max_eq_left (not_lt.1 h1)]

theorem maxmin_eq_lo_of_lt {c lo hi : ℚ} (h : hi < lo) :
    Max.max (Min.min c hi) lo = lo :=
  max_eq_right (le_of_lt (lt_of_le_of_lt (min_le_right c hi) h))

/-- C2 (counterexample): with bounds `min = 5 > 2 = max`, `Clamp` maps the
zero vector to the all-`5` vector — every component equals the `min` bound,
not the `max` bound the claim states — for Vector2 and Vector4 alike. -/
theorem clamp_counterexample :
    (Vector2.Clamp ⟨0, 0⟩ 5 2 = ⟨5, 5⟩ ∧ (⟨5, 5⟩ : Vector2 ℚ) ≠ ⟨2, 2⟩)
    ∧ (Vector4.Clamp ⟨0, 0, 0, 0⟩ 5 2 = ⟨5, 5, 5, 5⟩
      ∧ (⟨5, 5, 5, 5⟩ : Vector4 ℚ) ≠ ⟨2, 2, 2, 2⟩) := by
  constructor
  · exact ⟨by simp [Vector2.Clamp], by simp⟩
  · exact ⟨by simp [Vector4.Clamp], by simp⟩

/-- C2 (amended): when `min <= max`, `Clamp(min, max)` clamps each component
independently into `[min, max]`; when `min > max`, the two-step min-then-max
composition makes every component of the result equal to `min` (the bound
applied last), not an error. -/
theorem clamp_two_step_composition (v : Vector2 ℚ) (u : Vector4 ℚ)
    (min max : ℚ) :
    (min ≤ max →
      Vector2.Clamp v min max
        = ⟨clampIntoSpec v.X min max, clampIntoSpec v.Y min max⟩
      ∧ Vector4.Clamp u min max
        = ⟨clampIntoSpec u.x min max, clampIntoSpec u.y min max,
           clampIntoSpec u.z min max, clampIntoSpec u.w min max⟩)
    ∧ (max < min →
      Vector2.Clamp v min max = ⟨min, min⟩
      ∧ Vector4.Clamp u min max = ⟨min, min, min, min⟩) := by
  constructor
  · intro h
    constructor
    · simp only [Vector2.Clamp, maxmin_eq_clampIntoSpec h]
    · simp only [Vector4.Clamp, maxmin_eq_clampIntoSpec h]
  · intro h
    constructor
    · simp only [Vector2.Clamp, maxmin_eq_lo_of_lt h]
    · simp only [Vector4.Clamp, maxmin_eq_lo_of_lt h]

/-- C2 (witness): the amended theorem applied at `v = (0, 7)`,
`u = (0, 7, 1, 9)`, bounds `[1, 5]`. -/
theorem clamp_two_step_composition_witness :
    (1 : ℚ) ≤ 5
    ∧ (Vector2.Clamp ⟨0, 7⟩ 1 5
        = ⟨clampIntoSpec 0 1 5, clampIntoSpec 7 1 5⟩
      ∧ Vector4.Clamp ⟨0, 7, 1, 9⟩ 1 5
        = ⟨clampIntoSpec 0 1 5, clampIntoSpec 7 1 5,
           clampIntoSpec 1 1 5, clampIntoSpec 9 1 5⟩) :=
  ⟨by norm_num,
   (clamp_two_step_composition ⟨0, 7⟩ ⟨0, 7, 1, 9⟩ 1 5).1 (by norm_num)⟩

/-- C6 (counterexample): at `v = (0, 1, 0)` — nonzero Y component — the code
picks the `Right` helper and returns `v x Right = (0, 0, -1)`; the claim's
selection (`Up` when Y or Z is nonzero) would cross `v` with a parallel
helper and produce the zero vector (in either operand order), which also
contradicts the claim's own nonzero-result guarantee. -/
theorem perpendicular_counterexample :
    Vector3.Perpendicular (⟨0, 1, 0⟩ : Vector3 ℤ) = ⟨0, 0, -1⟩
    ∧ Vector3.Cross (⟨0, 1, 0⟩ : Vector3 ℤ) Vector3.Up = ⟨0, 0, 0⟩
    ∧ Vector3.Cross Vector3.Up (⟨0, 1, 0⟩ : Vector3 ℤ) = ⟨0, 0, 0⟩
    ∧ (⟨0, 0, -1⟩ : Vector3 ℤ) ≠ ⟨0, 0, 0⟩ := by
  decide

/-- C6 (amended): `Perpendicular` picks the canonical right axis as helper
when the input has a nonzero Y or Z component and the canonical up axis
otherwise, and returns the input's cross product with that helper; for every
nonzero input the result is nonzero and perpendicular to the input (their
dot product is zero). -/
theorem perpendicular_helper_and_orthogonality (v : Vector3 ℚ) :
    (Vector3.Perpendicular v
      = if v.Y ≠ 0 ∨ v.Z ≠ 0 then Vector3.Cross v Vector3.Right
        else Vector3.Cross v Vector3.Up)
    ∧ (v ≠ ⟨0, 0, 0⟩ →
      Vector3.Perpendicular v ≠ ⟨0, 0, 0⟩
      ∧ Vector3.Dot v (Vector3.Perpendicular v) = 0) := by
  constructor
  · unfold Vector3.Perpendicular
    split <;> rfl
  · intro hv
    unfold Vector3.Perpendicular
    by_cases h : v.Y ≠ 0 ∨ v.Z ≠ 0
    · rw [if_pos h]
      constructor
      · intro hc
        simp only [Vector3.Cross, Vector3.Right, Vector3.mk.injEq, mul_zero,
          mul_one, zero_sub, sub_zero] at hc
        rcases h with h | h
        · exact h (neg_eq_zero.mp hc.2.2)
        · exact h (by linarith [hc.2.1])
      · simp only [Vector3.Dot, Vector3.Cross, Vector3.Right]
        ring
    · rw [if_neg h]
      push_neg at h
      obtain ⟨hy, hz⟩ := h
      have hx : v.X ≠ 0 := by
        intro hx
        exact hv (by cases v; simp_all)
      constructor
      · intro hc
        simp only [Vector3.Cross, Vector3.Up, Vector3.mk.injEq, mul_zero,
          mul_one, zero_sub, sub_zero] at hc
        exact hx (by linarith [hc.2.2])
      · simp only [Vector3.Dot, Vector3.Cross, Vector3.Up]
        ring

/-- C6 (witness): the amended theorem applied at the nonzero input
`(3, 0, 0)` (zero Y and Z, so the up helper is used). -/
theorem perpendicular_helper_and_orthogonality_witness :
    Vector3.Perpendicular (⟨3, 0, 0⟩ : Vector3 ℚ) ≠ ⟨0, 0, 0⟩
    ∧ Vector3.Dot (⟨3, 0, 0⟩ : Vector3 ℚ)
        (Vector3.Perpendicular ⟨3, 0, 0⟩) = 0 :=
  (perpendicular_helper_and_orthogonality ⟨3, 0, 0⟩).2
    (by norm_num [Vector3.mk.injEq])

/-- C7: for any implementations of the transcendental library functions
`math.Sqrt` and `math.Acos`, `Angle(other)` is acos of the dot product
divided by `sqrt(lenSq(v) * lenSq(other))` with the quotient clamped to
`[-1, 1]`, except that it is exactly 0 whenever that square root is smaller
than `1e-15` — for Vector2 and for Vector3. -/
theorem angle_formula (sqrt acos : ℚ → ℚ) (v2 o2 : Vector2 ℚ)
    (v3 o3 : Vector3 ℚ) :
    Vector2.Angle sqrt acos v2 o2 = angleSpec2 sqrt acos v2 o2
    ∧ Vector3.Angle sqrt acos v3 o3 = angleSpec3 sqrt acos v3 o3 := by
  constructor
  · simp only [Vector2.Angle, angleSpec2, mathexClamp, max_comm]
  · simp only [Vector3.Angle, angleSpec3, mathexClamp, max_comm]

/-- C3 (counterexample): the int64 vector `(2^53 + 1, 0)` does not survive
the JSON round trip: `float64(2^53 + 1)` rounds to `2^53` (ties to even at
the 53-bit significand boundary), so decoding returns `(2^53, 0)` — an
integer-kind vector whose round trip is not exact. -/
theorem json_roundtrip_counterexample :
    Vector2.UnmarshalJSONInt64 (Vector2.MarshalJSONInt64 ⟨9007199254740993, 0⟩)
      ⟨0, 0⟩ = (false, ⟨9007199254740992, 0⟩)
    ∧ (⟨9007199254740992, 0⟩ : Vector2 ℤ) ≠ ⟨9007199254740993, 0⟩ := by
  decide

/-- C3 (amended): marshaling then unmarshaling recovers every float64-kind
vector exactly (the wire carries its float64 components losslessly), for
every dimensionality; an integer-kind vector is recovered exactly whenever
each component's magnitude is at most `2^53` (within the float64-exact
integer range the wire format narrows through). -/
theorem json_roundtrip :
    (∀ pre v : Vector2 ℚ,
        Vector2.UnmarshalJSON (Vector2.MarshalJSON v) pre = (false, v))
    ∧ (∀ pre v : Vector3 ℚ,
        Vector3.UnmarshalJSON (Vector3.MarshalJSON v) pre = (false, v))
    ∧ (∀ pre v : Vector4 ℚ,
        Vector4.UnmarshalJSON (Vector4.MarshalJSON v) pre = (false, v))
    ∧ (∀ pre v : Vector2 ℤ, v.X.natAbs ≤ 2 ^ 53 → v.Y.natAbs ≤ 2 ^ 53 →
        Vector2.UnmarshalJSONInt64 (Vector2.MarshalJSONInt64 v) pre = (false, v))
    ∧ (∀ pre v : Vector3 ℤ, v.X.natAbs ≤ 2 ^ 53 → v.Y.natAbs ≤ 2 ^ 53 →
        v.Z.natAbs ≤ 2 ^ 53 →
        Vector3.UnmarshalJSONInt64 (Vector3.MarshalJSONInt64 v) pre = (false, v))
    ∧ (∀ pre v : Vector4 ℤ, v.x.natAbs ≤ 2 ^ 53 → v.y.natAbs ≤ 2 ^ 53 →
        v.z.natAbs ≤ 2 ^ 53 → v.w.natAbs ≤ 2 ^ 53 →
        Vector4.UnmarshalJSONInt64 (Vector4.MarshalJSONInt64 v) pre
          = (false, v)) := by
  refine ⟨fun pre v => rfl, fun pre v => rfl, fun pre v => rfl,
    fun pre v hx hy => ?_, fun pre v hx hy hz => ?_, fun pre v hx hy hz hw => ?_⟩
  · cases v with
    | mk X Y =>
      simp only [Vector2.MarshalJSONInt64, Vector2.UnmarshalJSONInt64,
        Option.getD_some]
      rw [goFloat64OfInt_eq_self hx, goFloat64OfInt_eq_self hy,
        ratTruncInt_intCast, ratTruncInt_intCast]
  · cases v with
    | mk X Y Z =>
      simp only [Vector3.MarshalJSONInt64, Vector3.UnmarshalJSONInt64,
        Option.getD_some]
      rw [goFloat64OfInt_eq_self hx, goFloat64OfInt_eq_self hy,
        goFloat64OfInt_eq_self hz, ratTruncInt_intCast, ratTruncInt_intCast,
        ratTruncInt_intCast]
  · cases v with
    | mk x y z w =>
      simp only [Vector4.MarshalJSONInt64, Vector4.UnmarshalJSONInt64,
        Option.getD_some]
      rw [goFloat64OfInt_eq_self hx, goFloat64OfInt_eq_self hy,
        goFloat64OfInt_eq_self hz, goFloat64OfInt_eq_self hw,
        ratTruncInt_intCast, ratTruncInt_intCast, ratTruncInt_intCast,
        ratTruncInt_intCast]

/-- C3 (witness): the amended theorem applied to the int64 vector `(3, -7)`
(both magnitudes within `2^53`) starting from receiver `(0, 0)`. -/
theorem json_roundtrip_witness :
    (3 : ℤ).natAbs ≤ 2 ^ 53 ∧ (-7 : ℤ).natAbs ≤ 2 ^ 53
    ∧ Vector2.UnmarshalJSONInt64 (Vector2.MarshalJSONInt64 ⟨3, -7⟩) ⟨0, 0⟩
        = (false, ⟨3, -7⟩) :=
  ⟨by decide, by decide,
   json_roundtrip.2.2.2.1 ⟨0, 0⟩ ⟨3, -7⟩ (by decide) (by decide)⟩

end GoVector
